import Mathlib

/-!
Shallow embedding of the retirement portfolio simulator
(`src/app.py` and `src/plan.py`).

Conventions of the embedding:
* Python floats are modelled as real numbers (`ℝ`); exact real arithmetic
  stands in for IEEE floating point.
* `np.random.normal(loc, scale, ...)` is modelled by its location-scale
  decomposition `loc + scale * z`, where `z` is a standard-normal draw
  supplied abstractly as an oracle function (the code uses the implicit
  global generator, so the draw sequence is an input of the embedding).
* `np.nan`, used as the no-value sentinel of the trailing-return series,
  is modelled by `Option ℝ` with `none` as the sentinel.
* pandas month-end date arithmetic (`pd.date_range(..., freq='ME')` and
  `(df.index - df.index[0]).days`) is modelled by an explicit Gregorian
  day count starting from 2025-01-31, the first month-end after the
  hard-coded start date 2025-01-01.
-/

/-! ## Calendar: pandas month-end day counts from 2025-01-31 -/

/-- Gregorian leap-year rule. -/
def isLeapYear (y : ℕ) : Bool :=
  (y % 4 == 0 && y % 100 != 0) || (y % 400 == 0)

/-- Number of days of month `m` (1-12) in year `y`. -/
def daysInMonth (y m : ℕ) : ℕ :=
  if m = 2 then (if isLeapYear y then 29 else 28)
  else if m = 4 ∨ m = 6 ∨ m = 9 ∨ m = 11 then 30
  else 31

/-- Calendar month `k` of the simulation: month 0 is January 2025
(`starting_date = '2025-01-01'`, `freq='ME'`). Returns (year, month). -/
def simMonth (k : ℕ) : ℕ × ℕ := (2025 + k / 12, 1 + k % 12)

/-- Days added when moving from the month-end of month `k-1` to the
month-end of month `k`. -/
def monthEndGap (k : ℕ) : ℕ := daysInMonth (simMonth k).1 (simMonth k).2

/-- `(df.index - df.index[0]).days` at row `i`: days from the month-end
2025-01-31 to the month-end of simulation month `i`. -/
def daysFromStart : ℕ → ℕ
  | 0 => 0
  | i + 1 => daysFromStart i + monthEndGap (i + 1)

/-! ## Simulation parameters (`get_default_params` / the `params` dict) -/

/-- The parameter record consumed by `generate_simulation` in `src/app.py`
(spec §3 `SimulationParameters`). Ages are integers in all uses. -/
structure SimulationParameters where
  starting_age : ℤ
  retirement_age : ℤ
  monthly_income : ℝ
  monthly_expenses : ℝ
  annual_return_rate : ℝ
  annual_volatility : ℝ
  inflation_rate : ℝ
  initial_investment : ℝ
  num_simulations : ℕ

/-- `get_default_params` from `src/app.py`. -/
def get_default_params : SimulationParameters :=
  ⟨24, 65, 5000, 3500, 0.07, 0.15, 0.03, 50000, 100⟩

/-! ## Per-month columns of the DataFrame (`src/app.py` lines 54-59) -/

/-- `df['Age'] = starting_age + (df.index - df.index[0]).days / 365.25`. -/
noncomputable def ageAt (p : SimulationParameters) (i : ℕ) : ℝ :=
  p.starting_age + (daysFromStart i : ℝ) / 365.25

/-- `df['Monthly_Income'] = monthly_income * (1+inflation_rate)**(Age - starting_age)`.
The exponent is a real power (`Real.rpow`). -/
noncomputable def monthlyIncome (p : SimulationParameters) (i : ℕ) : ℝ :=
  p.monthly_income * (1 + p.inflation_rate) ^ (ageAt p i - p.starting_age)

/-- `df['Monthly_Expenses'] = monthly_expenses * (1+inflation_rate)**(Age - starting_age)`. -/
noncomputable def monthlyExpenses (p : SimulationParameters) (i : ℕ) : ℝ :=
  p.monthly_expenses * (1 + p.inflation_rate) ^ (ageAt p i - p.starting_age)

/-- `df['Monthly_Investment'] = df['Monthly_Income'] - df['Monthly_Expenses']`. -/
noncomputable def monthlyInvestment (p : SimulationParameters) (i : ℕ) : ℝ :=
  monthlyIncome p i - monthlyExpenses p i

/-! ## Return generation (`src/app.py` lines 62-69) -/

/-- `monthly_volatility = annual_volatility / np.sqrt(12)`. -/
noncomputable def monthly_volatility (p : SimulationParameters) : ℝ :=
  p.annual_volatility / Real.sqrt 12

/-- `monthly_expected_return = (1 + annual_return_rate)**(1/12) - 1`. -/
noncomputable def monthly_expected_return (p : SimulationParameters) : ℝ :=
  (1 + p.annual_return_rate) ^ ((1 : ℝ) / 12) - 1

/-- `monthly_returns = np.random.normal(loc=mer, scale=mv, size=n)`:
modelled as `loc + scale * draw i` with `draw` the standard-normal oracle. -/
noncomputable def monthlyReturns (p : SimulationParameters) (draw : ℕ → ℝ) (i : ℕ) : ℝ :=
  monthly_expected_return p + monthly_volatility p * draw i

/-! ## Portfolio value loop (`src/app.py` lines 72-92) -/

/-- `flat_interest_rate = 0.05  # 5% flat interest rate for negative portfolio values`. -/
def flat_interest_rate : ℝ := 0.05

/-- One iteration of the portfolio loop in `generate_simulation`:
`pre = prior + investment; if pre >= 0: pre * (1 + ret) else: pre * (1 + flat/12)`.
The `i == 0` and `i > 0` branches of the source are this same formula,
with the prior balance `current_portfolio` threaded through. -/
noncomputable def portfolioStep (ret invest prior : ℝ) : ℝ :=
  let pre := prior + invest
  if 0 ≤ pre then pre * (1 + ret) else pre * (1 + flat_interest_rate / 12)

/-- `df['Portfolio_Value']` at row `i`, as a function of the return series,
the investment column and the initial investment (`src/app.py` 76-92). -/
noncomputable def portfolioValue (ret invest : ℕ → ℝ) (init : ℝ) : ℕ → ℝ
  | 0 => portfolioStep (ret 0) (invest 0) init
  | i + 1 => portfolioStep (ret (i + 1)) (invest (i + 1)) (portfolioValue ret invest init i)

/-! ## Trailing returns (`src/app.py` lines 28-41, `src/plan.py` lines 37-47) -/

/-- The base of the annualization power: `np.prod(1 + returns[i-window:i])`
(the slice taken in the `i >= window` branch). -/
noncomputable def trailingBase (rs : List ℝ) (window i : ℕ) : ℝ :=
  (((rs.drop (i - window)).take window).map (fun r => 1 + r)).prod

/-- `cumulative_return = np.prod(1 + window_returns) - 1` (`src/app.py` line 37). -/
noncomputable def cumulative_return (rs : List ℝ) (window i : ℕ) : ℝ :=
  trailingBase rs window i - 1

/-- Entry `i` of `calculate_trailing_return` in `src/app.py`:
`np.nan` (here `none`) for `i < window`, otherwise
`(1 + cumulative_return)**(12/window) - 1`. -/
noncomputable def trailingEntry (rs : List ℝ) (window i : ℕ) : Option ℝ :=
  if i < window then none
  else some ((1 + cumulative_return rs window i) ^ ((12 : ℝ) / (window : ℝ)) - 1)

/-- Default `window=24` of `calculate_trailing_return` in `src/app.py`. -/
def app_default_window : ℕ := 24

/-- `calculate_trailing_return(returns, window)` from `src/app.py` lines 28-41:
one entry per index of `returns`. -/
noncomputable def calculate_trailing_return (rs : List ℝ) (window : ℕ) : List (Option ℝ) :=
  (List.range rs.length).map (trailingEntry rs window)

/-- Default `window=36` of `calculate_trailing_return` in `src/plan.py`. -/
def plan_default_window : ℕ := 36

/-- Entry `i` of `calculate_trailing_return` in `src/plan.py` lines 37-47:
the defined branch computes `(1 + np.prod(1 + window_returns))**(12/window) - 1`
(no `- 1` inside the base, unlike `src/app.py`). -/
noncomputable def plan_trailingEntry (rs : List ℝ) (window i : ℕ) : Option ℝ :=
  if i < window then none
  else some ((1 + trailingBase rs window i) ^ ((12 : ℝ) / (window : ℝ)) - 1)

/-- `calculate_trailing_return` from `src/plan.py` lines 37-47. -/
noncomputable def plan_calculate_trailing_return (rs : List ℝ) (window : ℕ) : List (Option ℝ) :=
  (List.range rs.length).map (plan_trailingEntry rs window)

/-! ## plan.py portfolio loop (`src/plan.py` lines 88-100) -/

/-- The module-level portfolio loop of `src/plan.py`:
`i == 0`: `(50000 + investment[0]) * (1 + returns[0])`;
`i > 0`: `prior * (1 + returns[i]) + investment[i]` (no flat-interest guard,
and the contribution is added after the return is applied). -/
noncomputable def plan_portfolio_value (ret invest : ℕ → ℝ) : ℕ → ℝ
  | 0 => (50000 + invest 0) * (1 + ret 0)
  | i + 1 => plan_portfolio_value ret invest i * (1 + ret (i + 1)) + invest (i + 1)

/-! ## Crash injection (`src/plan.py` lines 72-86) -/

/-- Processing of one crash month `i` (type-generic over the entry type):
`returns[i] = crash_return`, then for `j in range(1, min(R, len - i))`
(guarded by `if i + j < len`): `returns[i+j] = draw i j`, where `draw i j`
models the recovery draw
`np.random.normal(loc=mer * (j / recovery_months), scale=mv * 1.5)`. -/
def crash_overwrite {α : Type} (len R : ℕ) (cr : α) (draw : ℕ → ℕ → α)
    (s : List α) (i : ℕ) : List α :=
  let s1 := s.set i cr
  let recovery_months := min R (len - i)
  (List.range (recovery_months - 1)).foldl
    (fun t jj => if i + (jj + 1) < len then t.set (i + (jj + 1)) (draw i (jj + 1)) else t) s1

/-- The crash-injection loop of `src/plan.py` lines 73-86: months are
processed in increasing order; `crash i` is the precomputed boolean
`crash_months[i]`. -/
def inject_crashes {α : Type} (R : ℕ) (cr : α) (crash : ℕ → Bool)
    (draw : ℕ → ℕ → α) (rs : List α) : List α :=
  (List.range rs.length).foldl
    (fun s i => if crash i then crash_overwrite rs.length R cr draw s i else s) rs

/-! ## generate_simulation and the batch loop (`src/app.py` 44-96, 217-248) -/

/-- `num_months = (retirement_age - starting_age) * 12` (`src/app.py` line 47). -/
def num_months (p : SimulationParameters) : ℤ :=
  (p.retirement_age - p.starting_age) * 12

/-- `generate_simulation(params)` from `src/app.py` lines 44-96, restricted to
its numeric output: the `Portfolio_Value` column and the trailing-return
series (the other columns are the definitions above). -/
noncomputable def generate_simulation (p : SimulationParameters) (draw : ℕ → ℝ) :
    List ℝ × List (Option ℝ) :=
  let n := (num_months p).toNat
  let returns := (List.range n).map (monthlyReturns p draw)
  let values :=
    (List.range n).map (portfolioValue (monthlyReturns p draw) (monthlyInvestment p) p.initial_investment)
  (values, calculate_trailing_return returns app_default_window)

/-- Runtime errors raised by the libraries used in `generate_simulation`:
`pd.date_range` raises `ValueError` for a negative `periods` argument
(`src/app.py` line 48); with `periods = 0` the date range is empty and
`df.index[0]` raises `IndexError` (`src/app.py` line 54); and
`np.random.normal` raises `ValueError` for a negative `scale` argument
(`src/app.py` line 65). The source performs no parameter validation of its
own; these library exceptions are its only failure points, and the spec §7
taxonomy labels this failure class `InvalidParameter`. -/
inductive PyError where
  | negativePeriods : PyError
  | emptyIndex : PyError
  | negativeScale : PyError
deriving DecidableEq

/-- `generate_simulation` with its runtime-error behaviour: the failure
points in source order — `pd.date_range` on line 48 (negative month count),
`df.index[0]` on line 54 (zero month count, empty index), `np.random.normal`
on line 65 (negative volatility). No portfolio value is ever computed on any
error path. -/
noncomputable def generate_simulationE (p : SimulationParameters) (draw : ℕ → ℝ) :
    Except PyError (List ℝ × List (Option ℝ)) :=
  if num_months p < 0 then .error .negativePeriods
  else if num_months p = 0 then .error .emptyIndex
  else if p.annual_volatility < 0 then .error .negativeScale
  else .ok (generate_simulation p draw)

/-- The batch loop of `update_graph` (`src/app.py` lines 242-248): `k`
sequential calls of `generate_simulation`, appending each result; an
exception aborts the loop and discards the partial list. `draw s` is the
draw oracle of run `s`. -/
noncomputable def runSims (p : SimulationParameters) (draw : ℕ → ℕ → ℝ) :
    ℕ → Except PyError (List (List ℝ × List (Option ℝ)))
  | 0 => .ok []
  | k + 1 =>
    match runSims p draw k with
    | .error e => .error e
    | .ok acc =>
      match generate_simulationE p (draw k) with
      | .error e => .error e
      | .ok s => .ok (acc ++ [s])

/-! ## Concrete parameter records used in witnesses and counterexamples -/

/-- The worked example of spec §8: 24 months, no inflation, no return,
no volatility. -/
def exampleParams : SimulationParameters :=
  ⟨24, 26, 5000, 3500, 0, 0, 0, 50000, 100⟩

/-- Default parameters with `annual_volatility = 0`. -/
def pZeroVol : SimulationParameters :=
  ⟨24, 65, 5000, 3500, 0.07, 0, 0.03, 50000, 100⟩

/-- `retirement_age = starting_age`: month count 0. -/
def pEqualAges : SimulationParameters :=
  ⟨30, 30, 5000, 3500, 0.07, 0.15, 0.03, 50000, 100⟩

/-- `retirement_age < starting_age`: negative month count. -/
def pNegAges : SimulationParameters :=
  ⟨65, 24, 5000, 3500, 0.07, 0.15, 0.03, 50000, 100⟩

/-- Negative `annual_volatility`. -/
def pNegVol : SimulationParameters :=
  ⟨24, 65, 5000, 3500, 0.07, -0.15, 0.03, 50000, 100⟩

/-- Negative base `monthly_income` with nonnegative inflation. -/
def pNegIncome : SimulationParameters :=
  ⟨24, 65, -1, 3500, 0.07, 0.15, 1, 50000, 100⟩

/-- Parameters whose volatility `√12` makes the monthly volatility exactly 1,
so the return oracle is passed through undamped. -/
noncomputable def pUnitVol : SimulationParameters :=
  ⟨24, 65, 5000, 3500, 0.07, Real.sqrt 12, 0.03, 50000, 100⟩

/-- Draw oracle making `monthlyReturns pUnitVol drawUnitVol i` equal to
`-3` at month 0 and `0` afterwards (a return below -100%). -/
noncomputable def drawUnitVol (i : ℕ) : ℝ :=
  (if i = 0 then (-3 : ℝ) else 0) - monthly_expected_return pUnitVol

/-! ## Theorems -/

/-- Claim C1, counterexample: the module-level loop of `src/plan.py` does not
follow the claimed uniform rule. With every return `1` and every contribution
`1`, month 1 of the plan.py path is `100002 * 2 + 1 = 200005`, while the
claimed rule `pre_value * (1 + return)` gives `(100002 + 1) * 2 = 200006`. -/
theorem C1_counterexample :
    plan_portfolio_value (fun _ => 1) (fun _ => 1) 1 ≠
      portfolioStep 1 1 (plan_portfolio_value (fun _ => 1) (fun _ => 1) 0) := by
  have h0 : plan_portfolio_value (fun _ => (1:ℝ)) (fun _ => 1) 0 = 100002 := by
    show (50000 + (1:ℝ)) * (1 + 1) = 100002
    norm_num
  have h1 : plan_portfolio_value (fun _ => (1:ℝ)) (fun _ => 1) 1 = 200005 := by
    show plan_portfolio_value (fun _ => (1:ℝ)) (fun _ => 1) 0 * (1 + 1) + 1 = 200005
    rw [h0]; norm_num
  have h2 : portfolioStep 1 1 (plan_portfolio_value (fun _ => (1:ℝ)) (fun _ => 1) 0) = 200006 := by
    rw [h0]
    show (if (0:ℝ) ≤ 100002 + 1 then (100002 + 1) * (1 + 1)
          else (100002 + 1) * (1 + flat_interest_rate / 12)) = 200006
    rw [if_pos (by norm_num)]
    norm_num
  rw [h1, h2]
  norm_num

/-- Claim C1 (amended: restricted to `generate_simulation` in `src/app.py`;
the plan.py loop deviates): every entry of the simulated path satisfies the
single uniform rule — `pre_value` is the prior balance (`initial_investment`
at month 0, the previous `Portfolio_Value` afterwards) plus the month's net
contribution, the stochastic return is applied when `pre_value >= 0`, and the
flat 5% monthly fallback `1 + 0.05/12` is applied exactly when
`pre_value < 0`. -/
theorem C1_uniform_rule (p : SimulationParameters) (d : ℕ → ℝ) (i : ℕ)
    (h : i < (num_months p).toNat) :
    (generate_simulation p d).1[i]? = some
      (let prior :=
        match i with
        | 0 => p.initial_investment
        | j + 1 =>
          portfolioValue (monthlyReturns p d) (monthlyInvestment p) p.initial_investment j
      let pre := prior + monthlyInvestment p i
      if 0 ≤ pre then pre * (1 + monthlyReturns p d i)
      else pre * (1 + flat_interest_rate / 12)) := by
  have hv : (generate_simulation p d).1[i]? =
      some (portfolioValue (monthlyReturns p d) (monthlyInvestment p) p.initial_investment i) := by
    simp [generate_simulation, h]
  rw [hv]
  congr 1
  cases i with
  | zero => rfl
  | succ j => rfl

/-- Witness for C1_uniform_rule: month 1 of a default-parameter run. -/
theorem C1_uniform_rule_witness :
    (generate_simulation get_default_params (fun _ => 0)).1[1]? = some
      (let prior :=
        portfolioValue (monthlyReturns get_default_params (fun _ => 0))
          (monthlyInvestment get_default_params) get_default_params.initial_investment 0
      let pre := prior + monthlyInvestment get_default_params 1
      if 0 ≤ pre then pre * (1 + monthlyReturns get_default_params (fun _ => 0) 1)
      else pre * (1 + flat_interest_rate / 12)) :=
  C1_uniform_rule get_default_params (fun _ => 0) 1 (by decide)

/-- Claim C2, divergence of `src/plan.py`: on a series of 25 zero returns
with window 24, index 24, `src/app.py` computes
`(1 + (prod(1+r) - 1))^(12/24) - 1 = 0` as the claim states, while
`src/plan.py` computes `(1 + prod(1+r))^(12/24) - 1 = sqrt 2 - 1 != 0`; the
two default windows also differ (24 in app.py, 36 in plan.py). -/
theorem C2_formula_divergence :
    (calculate_trailing_return (List.replicate 25 0) 24)[24]? = some (some 0) ∧
    (plan_calculate_trailing_return (List.replicate 25 0) 24)[24]? =
      some (some (Real.sqrt 2 - 1)) ∧
    Real.sqrt 2 - 1 ≠ 0 ∧
    app_default_window = 24 ∧ plan_default_window = 36 := by
  have hbase : trailingBase (List.replicate 25 (0:ℝ)) 24 24 = 1 := by
    simp [trailingBase, List.take_replicate]
  have hexp : ((12:ℝ) / ((24:ℕ):ℝ)) = 1/2 := by norm_num
  refine ⟨?_, ?_, ?_, rfl, rfl⟩
  · have h1 : (calculate_trailing_return (List.replicate 25 (0:ℝ)) 24)[24]? =
        some (trailingEntry (List.replicate 25 0) 24 24) := by
      simp [calculate_trailing_return]
    rw [h1, trailingEntry, if_neg (by norm_num), cumulative_return, hbase]
    norm_num [Real.one_rpow]
  · have h1 : (plan_calculate_trailing_return (List.replicate 25 (0:ℝ)) 24)[24]? =
        some (plan_trailingEntry (List.replicate 25 0) 24 24) := by
      simp [plan_calculate_trailing_return]
    rw [h1, plan_trailingEntry, if_neg (by norm_num), hbase, hexp]
    rw [show ((1:ℝ) + 1) = 2 by norm_num, ← Real.sqrt_eq_rpow]
  · have h : Real.sqrt 2 ≠ 1 := by
      rw [ne_eq, show (1:ℝ) = Real.sqrt 1 by simp,
        Real.sqrt_inj (by norm_num) (by norm_num)]
      norm_num
    intro hc
    exact h (by linarith)

/-- Helper: a fold whose every step preserves entry `k` preserves entry `k`. -/
theorem foldl_getElem?_invariant {α β : Type} (f : List α → β → List α) (l : List β) (k : ℕ)
    (h : ∀ t b, b ∈ l → (f t b)[k]? = t[k]?) :
    ∀ s : List α, (l.foldl f s)[k]? = s[k]? := by
  induction l with
  | nil => intro s; rfl
  | cons b l ih =>
    intro s
    rw [List.foldl_cons, ih (fun t c hc => h t c (List.mem_cons_of_mem b hc)) (f s b),
      h s b (List.mem_cons_self b l)]

/-- Helper: a fold whose every step preserves length preserves length. -/
theorem foldl_length_invariant {α β : Type} (f : List α → β → List α) (l : List β)
    (h : ∀ t b, b ∈ l → (f t b).length = t.length) :
    ∀ s : List α, (l.foldl f s).length = s.length := by
  induction l with
  | nil => intro s; rfl
  | cons b l ih =>
    intro s
    rw [List.foldl_cons, ih (fun t c hc => h t c (List.mem_cons_of_mem b hc)) (f s b),
      h s b (List.mem_cons_self b l)]

/-- Processing one crash month never changes the length of the series. -/
theorem crash_overwrite_length {α : Type} (len R : ℕ) (cr : α) (draw : ℕ → ℕ → α)
    (s : List α) (i : ℕ) : (crash_overwrite len R cr draw s i).length = s.length := by
  simp only [crash_overwrite]
  rw [foldl_length_invariant]
  · exact List.length_set s i cr
  · intro t b _
    split
    · exact List.length_set t _ _
    · rfl

/-- Processing a crash at month `i` leaves every entry outside
`[i, i + R)` unchanged. -/
theorem crash_overwrite_getElem?_other {α : Type} (len R : ℕ) (cr : α) (draw : ℕ → ℕ → α)
    (s : List α) (i k : ℕ) (hki : k ≠ i) (hk : k < i ∨ i + R ≤ k) :
    (crash_overwrite len R cr draw s i)[k]? = s[k]? := by
  have hstep : ∀ (t : List α) (b : ℕ), b ∈ List.range (min R (len - i) - 1) →
      (if i + (b + 1) < len then t.set (i + (b + 1)) (draw i (b + 1)) else t)[k]? = t[k]? := by
    intro t b hb
    have hb2 : b < min R (len - i) - 1 := List.mem_range.mp hb
    have hne : i + (b + 1) ≠ k := by omega
    split
    · exact List.getElem?_set_ne hne
    · rfl
  simp only [crash_overwrite]
  rw [foldl_getElem?_invariant _ _ k hstep (s.set i cr)]
  exact List.getElem?_set_ne (Ne.symm hki)

/-- Processing a crash at month `i` sets entry `i` to the crash return. -/
theorem crash_overwrite_getElem?_self {α : Type} (len R : ℕ) (cr : α) (draw : ℕ → ℕ → α)
    (s : List α) (i : ℕ) (hi : i < s.length) :
    (crash_overwrite len R cr draw s i)[i]? = some cr := by
  have hstep : ∀ (t : List α) (b : ℕ), b ∈ List.range (min R (len - i) - 1) →
      (if i + (b + 1) < len then t.set (i + (b + 1)) (draw i (b + 1)) else t)[i]? = t[i]? := by
    intro t b _
    have hne : i + (b + 1) ≠ i := by omega
    split
    · exact List.getElem?_set_ne hne
    · rfl
  simp only [crash_overwrite]
  rw [foldl_getElem?_invariant _ _ i hstep (s.set i cr)]
  exact List.getElem?_set_eq_of_lt cr hi

/-- After the whole injection loop, every crash month holds the crash return:
months before `m` are processed first and `m`'s own processing overwrites
whatever recovery values they wrote at `m`; months after `m` only write at
indices greater than `m`. -/
theorem inject_crashes_crash_month {α : Type} (R : ℕ) (cr : α) (crash : ℕ → Bool)
    (draw : ℕ → ℕ → α) (rs : List α) (m : ℕ) (hm : m < rs.length) (hc : crash m = true) :
    (inject_crashes R cr crash draw rs)[m]? = some cr := by
  simp only [inject_crashes]
  set f := fun (s : List α) (i : ℕ) =>
    if crash i then crash_overwrite rs.length R cr draw s i else s with hf
  have hflen : ∀ (t : List α) (b : ℕ), b ∈ List.range m → (f t b).length = t.length := by
    intro t b _
    by_cases hcb : crash b = true
    · simp only [hf, hcb, if_true]
      exact crash_overwrite_length rs.length R cr draw t b
    · simp [hf, hcb]
  have hsplit : List.range rs.length =
      List.range (m + 1) ++ (List.range (rs.length - (m + 1))).map ((m + 1) + ·) := by
    rw [← List.range_add]
    congr 1
    omega
  have hs1 : ((List.range (m + 1)).foldl f rs)[m]? = some cr := by
    rw [List.range_succ, List.foldl_append, List.foldl_cons, List.foldl_nil, hf]
    simp only [hc, if_true]
    refine crash_overwrite_getElem?_self rs.length R cr draw _ m ?_
    rw [foldl_length_invariant f (List.range m) hflen rs]
    exact hm
  have hrest : ∀ (t : List α) (b : ℕ),
      b ∈ (List.range (rs.length - (m + 1))).map ((m + 1) + ·) → (f t b)[m]? = t[m]? := by
    intro t b hb
    obtain ⟨x, _, rfl⟩ := List.mem_map.mp hb
    by_cases hcb : crash (m + 1 + x) = true
    · simp only [hf, hcb, if_true]
      exact crash_overwrite_getElem?_other rs.length R cr draw t (m + 1 + x) m
        (by omega) (Or.inl (by omega))
    · simp [hf, hcb]
  rw [hsplit, List.foldl_append, foldl_getElem?_invariant f _ m hrest _]
  exact hs1

/-- Claim C3: after the crash-injection loop of `src/plan.py` (months
processed in increasing order) the final return at every crash month equals
`crash_return` exactly, even when that month lies inside an earlier crash's
recovery window (the later overwrite wins); and one crash's processing only
writes inside `[i, i + crash_recovery_months)` truncated at the series end —
entries before `i`, entries from `i + R` on, and the series length are all
unchanged. -/
theorem C3_crash_injection {α : Type} (R : ℕ) (cr : α) (crash : ℕ → Bool)
    (draw : ℕ → ℕ → α) (rs : List α) (m : ℕ) (hm : m < rs.length) (hc : crash m = true)
    (len : ℕ) (s : List α) (i k : ℕ) (hR : 1 ≤ R) (hk : k < i ∨ i + R ≤ k) :
    (inject_crashes R cr crash draw rs)[m]? = some cr ∧
    (crash_overwrite len R cr draw s i)[k]? = s[k]? ∧
    (crash_overwrite len R cr draw s i).length = s.length :=
  ⟨inject_crashes_crash_month R cr crash draw rs m hm hc,
    crash_overwrite_getElem?_other len R cr draw s i k (by omega) hk,
    crash_overwrite_length len R cr draw s i⟩

/-- Witness for C3_crash_injection: a 5-month series with crashes at months
1 and 2 and a 2-month recovery; month 2 lies in month 1's recovery window
yet ends at the crash return. -/
theorem C3_crash_injection_witness :
    (inject_crashes 2 (-1/5 : ℚ) (fun n => n == 1 || n == 2) (fun _ _ => 7)
      ([0, 0, 0, 0, 0] : List ℚ))[2]? = some (-1/5 : ℚ) ∧
    (crash_overwrite 4 2 (-1/5 : ℚ) (fun _ _ => 7) ([3, 3, 3, 3] : List ℚ) 1)[0]? =
      ([3, 3, 3, 3] : List ℚ)[0]? ∧
    (crash_overwrite 4 2 (-1/5 : ℚ) (fun _ _ => 7) ([3, 3, 3, 3] : List ℚ) 1).length =
      ([3, 3, 3, 3] : List ℚ).length :=
  C3_crash_injection 2 (-1/5 : ℚ) (fun n => n == 1 || n == 2) (fun _ _ => 7)
    ([0, 0, 0, 0, 0] : List ℚ) 2 (by decide) (by decide) 4 ([3, 3, 3, 3] : List ℚ) 1 0
    (by decide) (Or.inl (by decide))

/-- Claim C4, counterexample: the return generator can produce a series with
a return below -100% (here month 0 returns -300%, via volatility `sqrt 12`
and an explicit draw oracle); on that series the base
`1 + cumulative_return = prod(1 + r)` of the annualization at index 24,
window 24, is `-2 < 0`, and no nonnegative real `y` satisfies
`y^2 = base` — the fractional power `base^(12/24)` is not a well-defined
real number (the float code yields NaN). -/
theorem C4_counterexample :
    (List.range 25).map (monthlyReturns pUnitVol drawUnitVol) =
      (-3) :: List.replicate 24 0 ∧
    trailingBase ((-3) :: List.replicate 24 0) 24 24 = -2 ∧
    ¬ ∃ y : ℝ, 0 ≤ y ∧ y ^ 2 = trailingBase ((-3) :: List.replicate 24 0) 24 24 := by
  have hmv : monthly_volatility pUnitVol = 1 := by
    rw [monthly_volatility]
    show Real.sqrt 12 / Real.sqrt 12 = 1
    exact div_self (ne_of_gt (Real.sqrt_pos.mpr (by norm_num)))
  have hbase : trailingBase ((-3) :: List.replicate 24 (0:ℝ)) 24 24 = -2 := by
    rw [trailingBase]
    norm_num [List.take_replicate]
  refine ⟨?_, hbase, ?_⟩
  · apply List.ext_getElem (by simp)
    intro i h1 h2
    have hmr : monthlyReturns pUnitVol drawUnitVol i = if i = 0 then -3 else 0 := by
      rw [monthlyReturns, drawUnitVol, hmv]
      ring
    simp only [List.getElem_map, List.getElem_range, hmr]
    cases i with
    | zero => rfl
    | succ j =>
      rw [List.getElem_cons_succ, List.getElem_replicate]
      norm_num
  · rw [hbase]
    rintro ⟨y, hy0, hy2⟩
    nlinarith [sq_nonneg y]

/-- Claim C4 (amended): no arithmetic step raises a runtime error, but the
annualization base is a well-defined positive real only when every return in
the trailing window exceeds -100%; under that hypothesis the windowed product
`prod(1 + r)` is strictly positive, so the real power `base^(12/window)` is
the genuine positive real power. (For series with a return at or below
-100% the base may be negative and the real fractional power is undefined;
the float code produces NaN rather than raising.) -/
theorem C4_positive_base (rs : List ℝ) (window i : ℕ)
    (h : ∀ r ∈ (rs.drop (i - window)).take window, -1 < r) :
    0 < trailingBase rs window i := by
  rw [trailingBase]
  apply List.prod_pos
  intro x hx
  obtain ⟨r, hr, rfl⟩ := List.mem_map.mp hx
  linarith [h r hr]

/-- Witness for C4_positive_base: a window of zero returns. -/
theorem C4_positive_base_witness : 0 < trailingBase (List.replicate 26 0) 24 24 :=
  C4_positive_base (List.replicate 26 0) 24 24 (by
    intro r hr
    simp [List.take_replicate, List.mem_replicate] at hr
    rw [hr]
    norm_num)

/-- Claim C5: for every invalid parameter set — non-positive month count
(equivalently `retirement_age <= starting_age`) or negative volatility —
the run fails before any portfolio value is computed, the error is surfaced
to the caller (the exception propagates out of the batch loop), and no
partial batch is returned; for valid parameters no error is raised. The
concrete error is the library exception of the first failing call
(`ValueError` from `pd.date_range` for a negative month count, `IndexError`
from `df.index[0]` for a zero month count, `ValueError` from
`np.random.normal` for a negative volatility) — the failure class the spec
§7 taxonomy names `InvalidParameter`. -/
theorem C5_validation (p : SimulationParameters) (d : ℕ → ℝ) (dd : ℕ → ℕ → ℝ) (N : ℕ) :
    (p.retirement_age ≤ p.starting_age ↔ num_months p ≤ 0) ∧
    (num_months p < 0 → generate_simulationE p d = .error .negativePeriods) ∧
    (num_months p = 0 → generate_simulationE p d = .error .emptyIndex) ∧
    (0 < num_months p → p.annual_volatility < 0 →
      generate_simulationE p d = .error .negativeScale) ∧
    (0 < num_months p → 0 ≤ p.annual_volatility →
      generate_simulationE p d = .ok (generate_simulation p d)) ∧
    (num_months p ≤ 0 ∨ p.annual_volatility < 0 → 1 ≤ N →
      ∃ e, runSims p dd N = .error e) := by
  have hage : p.retirement_age ≤ p.starting_age ↔ num_months p ≤ 0 := by
    rw [num_months]
    omega
  have hneg : ∀ d2 : ℕ → ℝ, num_months p < 0 →
      generate_simulationE p d2 = .error .negativePeriods := by
    intro d2 h
    rw [generate_simulationE, if_pos h]
  have hzero : ∀ d2 : ℕ → ℝ, num_months p = 0 →
      generate_simulationE p d2 = .error .emptyIndex := by
    intro d2 h
    rw [generate_simulationE, if_neg (by omega), if_pos h]
  have hscale : ∀ d2 : ℕ → ℝ, 0 < num_months p → p.annual_volatility < 0 →
      generate_simulationE p d2 = .error .negativeScale := by
    intro d2 h1 h2
    rw [generate_simulationE, if_neg (by omega), if_neg (by omega), if_pos h2]
  refine ⟨hage, hneg d, hzero d, hscale d, ?_, ?_⟩
  · intro h1 h2
    rw [generate_simulationE, if_neg (by omega), if_neg (by omega),
      if_neg (not_lt.mpr h2)]
  · intro hinv hN
    have herr : ∃ e, ∀ d2 : ℕ → ℝ, generate_simulationE p d2 = .error e := by
      rcases hinv with hm | hv
      · rcases lt_or_eq_of_le hm with hlt | heq
        · exact ⟨.negativePeriods, fun d2 => hneg d2 hlt⟩
        · exact ⟨.emptyIndex, fun d2 => hzero d2 heq⟩
      · rcases lt_trichotomy (num_months p) 0 with hlt | heq | hgt
        · exact ⟨.negativePeriods, fun d2 => hneg d2 hlt⟩
        · exact ⟨.emptyIndex, fun d2 => hzero d2 heq⟩
        · exact ⟨.negativeScale, fun d2 => hscale d2 hgt hv⟩
    obtain ⟨e, herr⟩ := herr
    refine ⟨e, ?_⟩
    induction N with
    | zero => omega
    | succ k ih =>
      cases k with
      | zero => simp [runSims, herr (dd 0)]
      | succ k2 =>
        rw [runSims, ih (by omega)]

/-- Witness for C5_validation: a negative month count, a zero month count
(`retirement_age = starting_age`), and a negative volatility each error;
default parameters succeed; and the batch loop propagates the first error
with no partial batch. -/
theorem C5_validation_witness :
    generate_simulationE pNegAges (fun _ => 0) = .error .negativePeriods ∧
    generate_simulationE pEqualAges (fun _ => 0) = .error .emptyIndex ∧
    generate_simulationE pNegVol (fun _ => 0) = .error .negativeScale ∧
    generate_simulationE get_default_params (fun _ => 0) =
      .ok (generate_simulation get_default_params (fun _ => 0)) ∧
    (∃ e, runSims pNegAges (fun _ _ => 0) 100 = .error e) :=
  ⟨(C5_validation pNegAges (fun _ => 0) (fun _ _ => 0) 100).2.1 (by decide),
    (C5_validation pEqualAges (fun _ => 0) (fun _ _ => 0) 100).2.2.1 (by decide),
    (C5_validation pNegVol (fun _ => 0) (fun _ _ => 0) 100).2.2.2.1 (by decide)
      (by show (-0.15 : ℝ) < 0; norm_num),
    (C5_validation get_default_params (fun _ => 0) (fun _ _ => 0) 100).2.2.2.2.1 (by decide)
      (by show (0 : ℝ) ≤ 0.15; norm_num),
    (C5_validation pNegAges (fun _ => 0) (fun _ _ => 0) 100).2.2.2.2.2
      (Or.inl (by decide)) (by norm_num)⟩

/-- Claim C6, counterexample: with the default window 24, the entry at index
`window - 1 = 23` of the trailing-return series is still the NaN sentinel —
the code writes the sentinel for every `i < window`, so the first `window`
entries (not `window - 1`) are undefined, contradicting the claim that the
entry at index `window - 1` holds a defined value. -/
theorem C6_counterexample :
    app_default_window = 24 ∧
    (calculate_trailing_return (List.replicate 30 0) 24)[23]? = some none := by
  refine ⟨rfl, ?_⟩
  have h : (calculate_trailing_return (List.replicate 30 (0:ℝ)) 24)[23]? =
      some (trailingEntry (List.replicate 30 0) 24 23) := by
    simp [calculate_trailing_return]
  rw [h, trailingEntry, if_pos (by norm_num)]

/-- Claim C6 (amended): for every return series exactly the first `window`
entries of the trailing-return series are the NaN sentinel, and every entry
from index `window` onward holds the defined annualized value. -/
theorem C6_sentinel (rs : List ℝ) (window i : ℕ) (h : i < rs.length) :
    (i < window → (calculate_trailing_return rs window)[i]? = some none) ∧
    (window ≤ i → (calculate_trailing_return rs window)[i]? =
      some (some ((1 + cumulative_return rs window i) ^ ((12 : ℝ) / (window : ℝ)) - 1))) := by
  have hbase : (calculate_trailing_return rs window)[i]? =
      some (trailingEntry rs window i) := by
    simp [calculate_trailing_return, h]
  constructor
  · intro hw
    rw [hbase, trailingEntry, if_pos hw]
  · intro hw
    rw [hbase, trailingEntry, if_neg (not_lt.mpr hw)]

/-- Witness for C6_sentinel: on a 40-month zero-return series, index 3 is
the sentinel and index 30 is defined. -/
theorem C6_sentinel_witness :
    (calculate_trailing_return (List.replicate 40 0) 24)[3]? = some none ∧
    (calculate_trailing_return (List.replicate 40 0) 24)[30]? =
      some (some ((1 + cumulative_return (List.replicate 40 0) 24 30) ^
        ((12 : ℝ) / ((24 : ℕ) : ℝ)) - 1)) :=
  ⟨(C6_sentinel (List.replicate 40 0) 24 3 (by simp)).1 (by norm_num),
    (C6_sentinel (List.replicate 40 0) 24 30 (by simp)).2 (by norm_num)⟩

/-- Helper: the positive branch of the portfolio step. -/
theorem portfolioStep_of_nonneg (ret invest prior : ℝ) (h : 0 ≤ prior + invest) :
    portfolioStep ret invest prior = (prior + invest) * (1 + ret) := by
  show (if 0 ≤ prior + invest then (prior + invest) * (1 + ret)
    else (prior + invest) * (1 + flat_interest_rate / 12)) = (prior + invest) * (1 + ret)
  rw [if_pos h]

/-- Helper: the flat-interest branch of the portfolio step. -/
theorem portfolioStep_of_neg (ret invest prior : ℝ) (h : prior + invest < 0) :
    portfolioStep ret invest prior = (prior + invest) * (1 + flat_interest_rate / 12) := by
  show (if 0 ≤ prior + invest then (prior + invest) * (1 + ret)
    else (prior + invest) * (1 + flat_interest_rate / 12)) =
    (prior + invest) * (1 + flat_interest_rate / 12)
  rw [if_neg (not_le.mpr h)]

/-- Helper: the portfolio value only depends on the return series pointwise. -/
theorem portfolioValue_congr (r1 r2 invest : ℕ → ℝ) (init : ℝ)
    (h : ∀ k, r1 k = r2 k) :
    ∀ i, portfolioValue r1 invest init i = portfolioValue r2 invest init i := by
  intro i
  induction i with
  | zero =>
    show portfolioStep (r1 0) (invest 0) init = portfolioStep (r2 0) (invest 0) init
    rw [h 0]
  | succ j ih =>
    show portfolioStep (r1 (j + 1)) (invest (j + 1)) (portfolioValue r1 invest init j) =
      portfolioStep (r2 (j + 1)) (invest (j + 1)) (portfolioValue r2 invest init j)
    rw [h (j + 1), ih]

/-- Claim C7: with `annual_volatility = 0` (app.py has no crash path at all)
every generated monthly return equals the exact monthly-compounding
conversion `(1 + annual_return_rate)^(1/12) - 1`, and the portfolio-value
sequence is identical across runs with different random draws — the
computation is deterministic once volatility is zero. -/
theorem C7_zero_volatility (p : SimulationParameters) (h : p.annual_volatility = 0)
    (d1 d2 : ℕ → ℝ) (i : ℕ) :
    monthlyReturns p d1 i = (1 + p.annual_return_rate) ^ ((1 : ℝ) / 12) - 1 ∧
    (generate_simulation p d1).1 = (generate_simulation p d2).1 := by
  have hr : ∀ (d : ℕ → ℝ) (k : ℕ), monthlyReturns p d k = monthly_expected_return p := by
    intro d k
    unfold monthlyReturns monthly_volatility
    rw [h, zero_div, zero_mul, add_zero]
  have hv : ∀ k, portfolioValue (monthlyReturns p d1) (monthlyInvestment p)
      p.initial_investment k =
      portfolioValue (monthlyReturns p d2) (monthlyInvestment p) p.initial_investment k :=
    portfolioValue_congr _ _ _ _ (fun k => by rw [hr d1 k, hr d2 k])
  refine ⟨by rw [hr d1 i, monthly_expected_return], ?_⟩
  show (List.range (num_months p).toNat).map
      (portfolioValue (monthlyReturns p d1) (monthlyInvestment p) p.initial_investment) =
    (List.range (num_months p).toNat).map
      (portfolioValue (monthlyReturns p d2) (monthlyInvestment p) p.initial_investment)
  exact List.map_congr_left (fun k _ => hv k)

/-- Witness for C7_zero_volatility: zero-volatility default parameters and
two different draw oracles. -/
theorem C7_zero_volatility_witness :
    monthlyReturns pZeroVol (fun _ => 1) 0 =
      (1 + pZeroVol.annual_return_rate) ^ ((1 : ℝ) / 12) - 1 ∧
    (generate_simulation pZeroVol (fun _ => 1)).1 =
      (generate_simulation pZeroVol (fun n => (n : ℝ))).1 :=
  C7_zero_volatility pZeroVol rfl (fun _ => 1) (fun n => (n : ℝ)) 0

/-- Helper for C8: with the example parameters the net contribution is
exactly 1500 every month (inflation is zero). -/
theorem exampleParams_invest (i : ℕ) : monthlyInvestment exampleParams i = 1500 := by
  simp [monthlyInvestment, monthlyIncome, monthlyExpenses, exampleParams, Real.one_rpow]
  norm_num

/-- Helper for C8: with the example parameters every return is exactly 0. -/
theorem exampleParams_returns (d : ℕ → ℝ) (i : ℕ) :
    monthlyReturns exampleParams d i = 0 := by
  simp [monthlyReturns, monthly_expected_return, monthly_volatility, exampleParams,
    Real.one_rpow]

/-- Helper for C8: closed form of the example portfolio value. -/
theorem exampleParams_value (d : ℕ → ℝ) :
    ∀ i, portfolioValue (monthlyReturns exampleParams d) (monthlyInvestment exampleParams)
      exampleParams.initial_investment i = 50000 + 1500 * ((i : ℝ) + 1) := by
  have hinit : exampleParams.initial_investment = 50000 := rfl
  intro i
  induction i with
  | zero =>
    show portfolioStep (monthlyReturns exampleParams d 0) (monthlyInvestment exampleParams 0)
      exampleParams.initial_investment = _
    rw [exampleParams_returns, exampleParams_invest, hinit,
      portfolioStep_of_nonneg _ _ _ (by norm_num)]
    norm_num
  | succ j ih =>
    show portfolioStep (monthlyReturns exampleParams d (j + 1))
      (monthlyInvestment exampleParams (j + 1)) _ = _
    rw [exampleParams_returns, exampleParams_invest, ih,
      portfolioStep_of_nonneg _ _ _ (by positivity)]
    push_cast
    ring

/-- Claim C8: with the spec §8 example parameters (24 months, zero inflation,
zero return, zero volatility, income 5000, expenses 3500, initial 50000) the
path has 24 months and `portfolio_value[i] = 50000 + 1500 * (i + 1)`, in
particular 51500 at month 0 and 86000 at month 23. -/
theorem C8_worked_example (d : ℕ → ℝ) (i : ℕ) (h : i < 24) :
    (generate_simulation exampleParams d).1.length = 24 ∧
    (generate_simulation exampleParams d).1[i]? = some (50000 + 1500 * ((i : ℝ) + 1)) := by
  have hn : (num_months exampleParams).toNat = 24 := by decide
  constructor
  · show ((List.range (num_months exampleParams).toNat).map _).length = 24
    rw [List.length_map, List.length_range, hn]
  · show ((List.range (num_months exampleParams).toNat).map
      (portfolioValue (monthlyReturns exampleParams d) (monthlyInvestment exampleParams)
        exampleParams.initial_investment))[i]? = _
    rw [hn]
    simp only [List.getElem?_map, List.getElem?_range, h, if_pos]
    simp [exampleParams_value d i]

/-- Witness for C8_worked_example: month 23 holds exactly 86000. -/
theorem C8_worked_example_witness :
    (generate_simulation exampleParams (fun _ => 3)).1.length = 24 ∧
    (generate_simulation exampleParams (fun _ => 3)).1[23]? = some 86000 := by
  have h := C8_worked_example (fun _ => 3) 23 (by norm_num)
  refine ⟨h.1, ?_⟩
  rw [h.2]
  norm_num

/-- Claim C9, counterexample: with a negative base `monthly_income = -1` and
inflation 100% (which is `>= 0`), the income sequence strictly decreases from
month 0 to month 1, so the claimed monotonicity does not hold for every
parameter set — it needs nonnegative base income and expenses. -/
theorem C9_counterexample :
    (0 : ℝ) ≤ pNegIncome.inflation_rate ∧
    monthlyIncome pNegIncome 1 < monthlyIncome pNegIncome 0 := by
  constructor
  · show (0 : ℝ) ≤ 1
    norm_num
  · have hd0 : ageAt pNegIncome 0 - (pNegIncome.starting_age : ℝ) = 0 := by
      unfold ageAt
      show ((24 : ℤ) : ℝ) + ((daysFromStart 0 : ℕ) : ℝ) / 365.25 - ((24 : ℤ) : ℝ) = 0
      norm_num [daysFromStart]
    have hd1 : ageAt pNegIncome 1 - (pNegIncome.starting_age : ℝ) = 28 / 365.25 := by
      unfold ageAt
      rw [show daysFromStart 1 = 28 from by decide]
      push_cast
      ring
    unfold monthlyIncome
    rw [hd0, hd1, Real.rpow_zero]
    have h2 : (1 : ℝ) + pNegIncome.inflation_rate = 2 := by
      show (1 : ℝ) + 1 = 2
      norm_num
    rw [h2]
    have hgt : (1 : ℝ) < 2 ^ ((28 : ℝ) / 365.25) := by
      rw [Real.one_lt_rpow_iff_of_pos (by norm_num)]
      left
      constructor <;> norm_num
    have hm : pNegIncome.monthly_income = -1 := rfl
    rw [hm]
    nlinarith

/-- Claim C9 (amended: additionally assuming nonnegative base income and
expenses, which every sensible parameter set satisfies): when
`inflation_rate >= 0` the monthly income and expense sequences are
monotonically non-decreasing in the month index. -/
theorem C9_monotone (p : SimulationParameters) (h0 : 0 ≤ p.inflation_rate)
    (hI : 0 ≤ p.monthly_income) (hE : 0 ≤ p.monthly_expenses) (i : ℕ) :
    monthlyIncome p i ≤ monthlyIncome p (i + 1) ∧
    monthlyExpenses p i ≤ monthlyExpenses p (i + 1) := by
  have hle : daysFromStart i ≤ daysFromStart (i + 1) := Nat.le_add_right _ _
  have hexp : ageAt p i - (p.starting_age : ℝ) ≤ ageAt p (i + 1) - (p.starting_age : ℝ) := by
    unfold ageAt
    have hdiv := (div_le_div_iff_of_pos_right (show (0 : ℝ) < 365.25 by norm_num)).mpr
      (show ((daysFromStart i : ℕ) : ℝ) ≤ ((daysFromStart (i + 1) : ℕ) : ℝ) by
        exact_mod_cast hle)
    linarith
  have hbase : (1 : ℝ) ≤ 1 + p.inflation_rate := by linarith
  have hfac := Real.rpow_le_rpow_of_exponent_le hbase hexp
  unfold monthlyIncome monthlyExpenses
  exact ⟨mul_le_mul_of_nonneg_left hfac hI, mul_le_mul_of_nonneg_left hfac hE⟩

/-- Witness for C9_monotone: the default parameters at month 0. -/
theorem C9_monotone_witness :
    monthlyIncome get_default_params 0 ≤ monthlyIncome get_default_params 1 ∧
    monthlyExpenses get_default_params 0 ≤ monthlyExpenses get_default_params 1 :=
  C9_monotone get_default_params (by show (0 : ℝ) ≤ 0.03; norm_num)
    (by show (0 : ℝ) ≤ 5000; norm_num) (by show (0 : ℝ) ≤ 3500; norm_num) 0

/-- Claim C10: if the prior balance is negative and the net contribution is
non-positive, then `pre_value < 0`, the flat-interest branch is taken,
`portfolio_value = pre_value * (1 + 0.05/12) < pre_value < 0` (the guard
strictly grows the magnitude of a negative balance), and consequently once
the balance is negative it stays negative for all later months while
contributions remain non-positive. -/
theorem C10_negative_guard (ret invest prior : ℝ) (h1 : prior < 0) (h2 : invest ≤ 0) :
    prior + invest < 0 ∧
    portfolioStep ret invest prior = (prior + invest) * (1 + flat_interest_rate / 12) ∧
    portfolioStep ret invest prior < prior + invest ∧
    (∀ (rets invs : ℕ → ℝ) (init : ℝ), init < 0 → (∀ k, invs k ≤ 0) →
      ∀ i, portfolioValue rets invs init i < 0) := by
  have hpre : prior + invest < 0 := by linarith
  have hstep := portfolioStep_of_neg ret invest prior hpre
  have hflat : flat_interest_rate = 0.05 := rfl
  refine ⟨hpre, hstep, ?_, ?_⟩
  · rw [hstep, hflat]
    nlinarith
  · intro rets invs init hinit hinv i
    induction i with
    | zero =>
      have hp : init + invs 0 < 0 := by linarith [hinv 0]
      show portfolioStep (rets 0) (invs 0) init < 0
      rw [portfolioStep_of_neg _ _ _ hp, hflat]
      nlinarith
    | succ j ih =>
      have hp : portfolioValue rets invs init j + invs (j + 1) < 0 := by
        linarith [hinv (j + 1)]
      show portfolioStep (rets (j + 1)) (invs (j + 1)) (portfolioValue rets invs init j) < 0
      rw [portfolioStep_of_neg _ _ _ hp, hflat]
      nlinarith

/-- Witness for C10_negative_guard: prior balance -5, contribution -10,
sampled return 50%; the realized value is -15 * (1 + 0.05/12) < -15, and a
path started at -5 with all contributions -10 is still negative at month 3. -/
theorem C10_negative_guard_witness :
    (-5 : ℝ) + -10 < 0 ∧
    portfolioStep 0.5 (-10) (-5) = ((-5) + -10) * (1 + flat_interest_rate / 12) ∧
    portfolioStep 0.5 (-10) (-5) < (-5) + -10 ∧
    portfolioValue (fun _ => 0.5) (fun _ => -10) (-5) 3 < 0 := by
  have h := C10_negative_guard 0.5 (-10) (-5) (by norm_num) (by norm_num)
  exact ⟨h.1, h.2.1, h.2.2.1,
    h.2.2.2 (fun _ => 0.5) (fun _ => -10) (-5) (by norm_num) (fun k => by norm_num) 3⟩
